import Mathlib

/-!
Verification of the agent communication substrate of `src/utils/multi_agent.py`
(toronto-ai-weather). The Python classes `Message`, `Agent`, `MessageBus`,
`CoordinatorAgent` and the module-level enumerations are shallowly embedded:
Python dictionaries become association lists or functions, `asyncio` queues
become lists, `datetime` instants become natural numbers with a verified
decimal rendering standing in for `isoformat`/`fromisoformat`, and Python
exceptions become an explicit `Except` error channel.
-/

namespace MultiAgent

/-- Embeds the `AgentRole` enumeration (`class AgentRole(Enum)`). -/
inductive AgentRole where
  | data_collector
  | data_processor
  | model_trainer
  | prediction_engine
  | anomaly_detector
  | feedback_analyzer
  | system_monitor
  | coordinator
deriving DecidableEq, Repr

/-- Embeds the `MessageType` enumeration (`class MessageType(Enum)`). -/
inductive MessageType where
  | request
  | response
  | notification
  | task_assignment
  | task_completion
  | model_update
  | performance_metric
  | anomaly_alert
  | system_status
deriving DecidableEq, Repr

/-- The `.value` string of each `AgentRole` member. -/
def AgentRole.value : AgentRole → String
  | .data_collector => "data_collector"
  | .data_processor => "data_processor"
  | .model_trainer => "model_trainer"
  | .prediction_engine => "prediction_engine"
  | .anomaly_detector => "anomaly_detector"
  | .feedback_analyzer => "feedback_analyzer"
  | .system_monitor => "system_monitor"
  | .coordinator => "coordinator"

/-- The enum lookup `AgentRole(s)`: `some` member on a recognised value string,
`none` where Python raises `ValueError`. -/
def AgentRole.ofValue (s : String) : Option AgentRole :=
  if s = "data_collector" then some .data_collector
  else if s = "data_processor" then some .data_processor
  else if s = "model_trainer" then some .model_trainer
  else if s = "prediction_engine" then some .prediction_engine
  else if s = "anomaly_detector" then some .anomaly_detector
  else if s = "feedback_analyzer" then some .feedback_analyzer
  else if s = "system_monitor" then some .system_monitor
  else if s = "coordinator" then some .coordinator
  else Option.none

/-- The `.value` string of each `MessageType` member. -/
def MessageType.value : MessageType → String
  | .request => "request"
  | .response => "response"
  | .notification => "notification"
  | .task_assignment => "task_assignment"
  | .task_completion => "task_completion"
  | .model_update => "model_update"
  | .performance_metric => "performance_metric"
  | .anomaly_alert => "anomaly_alert"
  | .system_status => "system_status"

/-- The enum lookup `MessageType(s)`. -/
def MessageType.ofValue (s : String) : Option MessageType :=
  if s = "request" then some .request
  else if s = "response" then some .response
  else if s = "notification" then some .notification
  else if s = "task_assignment" then some .task_assignment
  else if s = "task_completion" then some .task_completion
  else if s = "model_update" then some .model_update
  else if s = "performance_metric" then some .performance_metric
  else if s = "anomaly_alert" then some .anomaly_alert
  else if s = "system_status" then some .system_status
  else Option.none

theorem AgentRole.ofValue_value_role (r : AgentRole) : AgentRole.ofValue r.value = some r := by
  cases r <;> rfl

theorem MessageType.ofValue_value_type (t : MessageType) :
    MessageType.ofValue t.value = some t := by
  cases t <;> rfl

theorem AgentRole.value_ne_empty (r : AgentRole) : (r.value != "") = true := by
  cases r <;> rfl

/-- Embeds the Python values that flow through message dictionaries: strings,
numbers, `None`, and nested string-keyed dicts. -/
inductive Value where
  | str (s : String)
  | nat (n : Nat)
  | none
  | dict (entries : List (String × Value))

/-- Python truthiness of a `Value` (`if data.get(...)`-style tests). -/
def Value.truthy : Value → Bool
  | .str s => s != ""
  | .nat n => n != 0
  | .none => false
  | .dict entries => !entries.isEmpty

/-- Python exceptions relevant to this module. `malformedMessage` embeds the
`MalformedMessageError` class named by the specification; the source never
defines or raises it, it exists here only so that statements about it can be
made. `unmodeledShape` marks inputs on which Python would build an ill-typed
`Message` object that the typed model does not represent. -/
inductive PyErr where
  | keyError (k : String)
  | valueError (s : String)
  | typeError (s : String)
  | handlerExc (s : String)
  | deliveryError (s : String)
  | malformedMessage
  | unmodeledShape (s : String)
deriving DecidableEq, Repr

/-- First binding of a key in an association list (Python dict lookup). -/
def dictFind {α : Type} (d : List (String × α)) (k : String) : Option α :=
  match d with
  | [] => Option.none
  | p :: rest => if p.1 = k then some p.2 else dictFind rest k

/-- Python `k in d`. -/
def dictHasKey {α : Type} (d : List (String × α)) (k : String) : Bool :=
  match d with
  | [] => false
  | p :: rest => if p.1 = k then true else dictHasKey rest k

/-- Python `d[k] = v`: replaces the value in place when the key exists,
otherwise appends a new entry (insertion order is preserved). -/
def dictSet {α : Type} (d : List (String × α)) (k : String) (v : α) :
    List (String × α) :=
  if dictHasKey d k then d.map (fun p => if p.1 = k then (k, v) else p)
  else d ++ [(k, v)]

/-- Python `del d[k]`. -/
def dictDel {α : Type} (d : List (String × α)) (k : String) : List (String × α) :=
  match d with
  | [] => []
  | p :: rest => if p.1 = k then dictDel rest k else p :: dictDel rest k

/-- Python `data.get(k)` on a message dict: the stored value, or `None`. -/
def dget (d : List (String × Value)) (k : String) : Value :=
  (dictFind d k).getD Value.none

/-- Python `data.get(k, default)`. -/
def dgetD (d : List (String × Value)) (k : String) (default : Value) : Value :=
  (dictFind d k).getD default

/-- Python `data[k]`: raises `KeyError` when the key is absent. -/
def ditem (d : List (String × Value)) (k : String) : Except PyErr Value :=
  match dictFind d k with
  | some v => Except.ok v
  | Option.none => Except.error (PyErr.keyError k)

/-- Reads a string field that Python stores unchecked. A non-string value here
would make Python build an ill-typed `Message`, outside this typed model. -/
def asStr (v : Value) : Except PyErr String :=
  match v with
  | .str s => Except.ok s
  | _ => Except.error (PyErr.unmodeledShape "expected str")

/-- Reads an optional string field (`None` maps to `Option.none`). -/
def asStrOpt (v : Value) : Except PyErr (Option String) :=
  match v with
  | .str s => Except.ok (some s)
  | .none => Except.ok Option.none
  | _ => Except.error (PyErr.unmodeledShape "expected str or None")

/-- Reads a dict-valued field (the message `content`). -/
def asDict (v : Value) : Except PyErr (List (String × Value)) :=
  match v with
  | .dict entries => Except.ok entries
  | _ => Except.error (PyErr.unmodeledShape "expected dict")

/-- The enum constructor call `AgentRole(v)`: Python raises `ValueError` when
`v` is not the value string of a member (including non-string `v`). -/
def AgentRole.py (v : Value) : Except PyErr AgentRole :=
  match v with
  | .str s =>
    match AgentRole.ofValue s with
    | some r => Except.ok r
    | Option.none => Except.error (PyErr.valueError s)
  | _ => Except.error (PyErr.valueError "not a valid AgentRole")

/-- The enum constructor call `MessageType(v)`. -/
def MessageType.py (v : Value) : Except PyErr MessageType :=
  match v with
  | .str s =>
    match MessageType.ofValue s with
    | some t => Except.ok t
    | Option.none => Except.error (PyErr.valueError s)
  | _ => Except.error (PyErr.valueError "not a valid MessageType")

/-- Maps a decimal digit character back to its value; inverse of
`Nat.digitChar` on digits below ten. -/
def charToDigit (c : Char) : Option Nat :=
  if c = '0' then some 0
  else if c = '1' then some 1
  else if c = '2' then some 2
  else if c = '3' then some 3
  else if c = '4' then some 4
  else if c = '5' then some 5
  else if c = '6' then some 6
  else if c = '7' then some 7
  else if c = '8' then some 8
  else if c = '9' then some 9
  else Option.none

/-- Decodes a character list into digit values, failing on any non-digit. -/
def digitsOfChars : List Char → Option (List Nat)
  | [] => some []
  | c :: cs =>
    match charToDigit c, digitsOfChars cs with
    | some d, some ds => some (d :: ds)
    | _, _ => Option.none

/-- Stands in for `datetime.isoformat`: `datetime` instants are modelled as
natural numbers and the ISO-8601 string by the verified decimal rendering of
the instant (big-endian digits). -/
def isoformat (t : Nat) : String :=
  if t = 0 then "0" else String.mk (((Nat.digits 10 t).reverse).map Nat.digitChar)

/-- Stands in for `datetime.fromisoformat`: parses the decimal rendering back
to the instant and raises `ValueError` on any other string, mirroring how the
Python function rejects non-ISO input. -/
def fromisoformat (s : String) : Except PyErr Nat :=
  match s.data with
  | [] => Except.error (PyErr.valueError s)
  | c :: cs =>
    match digitsOfChars (c :: cs) with
    | some ds => Except.ok (Nat.ofDigits 10 ds.reverse)
    | Option.none => Except.error (PyErr.valueError s)

theorem charToDigit_digitChar : ∀ d : Nat, d < 10 → charToDigit (Nat.digitChar d) = some d := by
  decide

theorem digitsOfChars_map_digitChar (l : List Nat) (h : ∀ d ∈ l, d < 10) :
    digitsOfChars (l.map Nat.digitChar) = some l := by
  induction l with
  | nil => rfl
  | cons d rest ih =>
    have hd : d < 10 := h d (List.mem_cons_self d rest)
    have hrest : ∀ x ∈ rest, x < 10 := fun x hx => h x (List.mem_cons_of_mem d hx)
    simp only [List.map_cons, digitsOfChars, charToDigit_digitChar d hd, ih hrest]

theorem fromisoformat_isoformat (t : Nat) : fromisoformat (isoformat t) = Except.ok t := by
  by_cases h0 : t = 0
  · subst h0; rfl
  · have hne : Nat.digits 10 t ≠ [] := Nat.digits_ne_nil_iff_ne_zero.mpr h0
    have hlt : ∀ d ∈ (Nat.digits 10 t).reverse, d < 10 := by
      intro d hd
      exact Nat.digits_lt_base (by norm_num) (List.mem_reverse.mp hd)
    have hdata : (isoformat t).data = ((Nat.digits 10 t).reverse).map Nat.digitChar := by
      simp [isoformat, h0]
    have hrevne : (Nat.digits 10 t).reverse ≠ [] := by
      simpa using hne
    obtain ⟨d, ds, hds⟩ : ∃ d ds, (Nat.digits 10 t).reverse = d :: ds := by
      cases hrev : (Nat.digits 10 t).reverse with
      | nil => exact absurd hrev hrevne
      | cons d ds => exact ⟨d, ds, rfl⟩
    have hall : ∀ x ∈ d :: ds, x < 10 := hds ▸ hlt
    unfold fromisoformat
    rw [hdata, hds, List.map_cons]
    have hdigits : digitsOfChars (Nat.digitChar d :: List.map Nat.digitChar ds) =
        some (d :: ds) := by
      simpa using digitsOfChars_map_digitChar (d :: ds) hall
    simp only [hdigits]
    rw [← hds, List.reverse_reverse, Nat.ofDigits_digits]

theorem isoformat_truthy (t : Nat) : ((Value.str (isoformat t)).truthy) = true := by
  by_cases h0 : t = 0
  · subst h0; rfl
  · have hne : Nat.digits 10 t ≠ [] := Nat.digits_ne_nil_iff_ne_zero.mpr h0
    simp only [Value.truthy, isoformat, if_neg h0, bne_iff_ne, ne_eq]
    intro h
    have : ((Nat.digits 10 t).reverse).map Nat.digitChar = [] := by
      have := congrArg String.data h
      simpa using this
    simp at this
    exact hne this

/-- Embeds the `Message` class: one field per attribute set in `__init__`.
Python `datetime` instants are `Nat`, the content dict is an association
list. -/
structure Message where
  message_id : String
  sender_id : String
  sender_role : AgentRole
  recipient_id : Option String
  recipient_role : Option AgentRole
  message_type : MessageType
  content : List (String × Value)
  in_reply_to : Option String
  timestamp : Nat

/-- Embeds `Message.__init__`. Arguments appear in the Python signature
order; `freshUuid` stands for `str(uuid.uuid4())` and `now` for
`datetime.utcnow()`, the two effectful defaults. `message_id or str(uuid.uuid4())`
replaces a missing or empty (falsy) id; `timestamp or datetime.utcnow()` only
replaces a missing one, since `datetime` objects are always truthy. -/
def Message.init (sender_id : String) (sender_role : AgentRole)
    (message_type : MessageType) (content : List (String × Value))
    (recipient_id : Option String) (recipient_role : Option AgentRole)
    (message_id : Option String) (in_reply_to : Option String)
    (timestamp : Option Nat) (freshUuid : String) (now : Nat) : Message :=
  { message_id :=
      match message_id with
      | some s => if s = "" then freshUuid else s
      | Option.none => freshUuid
    sender_id := sender_id
    sender_role := sender_role
    recipient_id := recipient_id
    recipient_role := recipient_role
    message_type := message_type
    content := content
    in_reply_to := in_reply_to
    timestamp := timestamp.getD now }

/-- Serialization of an optional string field (`None` for absent). -/
def optStrVal : Option String → Value
  | some s => Value.str s
  | Option.none => Value.none

/-- Serialization of the optional recipient role:
`self.recipient_role.value if self.recipient_role else None`. -/
def optRoleVal : Option AgentRole → Value
  | some r => Value.str r.value
  | Option.none => Value.none

/-- Embeds `Message.to_dict`. -/
def Message.to_dict (m : Message) : List (String × Value) :=
  [("message_id", Value.str m.message_id),
   ("sender_id", Value.str m.sender_id),
   ("sender_role", Value.str m.sender_role.value),
   ("recipient_id", optStrVal m.recipient_id),
   ("recipient_role", optRoleVal m.recipient_role),
   ("message_type", Value.str m.message_type.value),
   ("content", Value.dict m.content),
   ("in_reply_to", optStrVal m.in_reply_to),
   ("timestamp", Value.str (isoformat m.timestamp))]

/-- The `recipient_role` argument expression of `from_dict`:
`AgentRole(data["recipient_role"]) if data.get("recipient_role") else None`. -/
def readRecipientRole (d : List (String × Value)) : Except PyErr (Option AgentRole) :=
  if (dget d "recipient_role").truthy then do
    let r ← AgentRole.py (dget d "recipient_role")
    pure (some r)
  else pure Option.none

/-- The `timestamp` argument expression of `from_dict`:
`datetime.fromisoformat(data["timestamp"]) if data.get("timestamp") else None`
(`fromisoformat` raises `TypeError` on a non-string argument). -/
def readTimestamp (d : List (String × Value)) : Except PyErr (Option Nat) :=
  if (dget d "timestamp").truthy then
    match dget d "timestamp" with
    | Value.str s => do
      let t ← fromisoformat s
      pure (some t)
    | _ => Except.error (PyErr.typeError "fromisoformat argument must be str")
  else pure Option.none

/-- Embeds `Message.from_dict`. The keyword arguments of the `cls(...)` call
are evaluated in their source order, so the first failing field determines the
raised exception; only then does `__init__` run. -/
def Message.from_dict (d : List (String × Value)) (freshUuid : String) (now : Nat) :
    Except PyErr Message := do
  let message_id ← asStrOpt (dget d "message_id")
  let sender_id ← asStr (← ditem d "sender_id")
  let sender_role ← AgentRole.py (← ditem d "sender_role")
  let recipient_id ← asStrOpt (dget d "recipient_id")
  let recipient_role ← readRecipientRole d
  let message_type ← MessageType.py (← ditem d "message_type")
  let content ← asDict (← ditem d "content")
  let in_reply_to ← asStrOpt (dget d "in_reply_to")
  let timestamp ← readTimestamp d
  pure (Message.init sender_id sender_role message_type content recipient_id
    recipient_role message_id in_reply_to timestamp freshUuid now)

theorem except_bind_ok {α β : Type} (x : α) (f : α → Except PyErr β) :
    (Except.ok x >>= f) = f x := rfl

theorem except_bind_error {α β : Type} (e : PyErr) (f : α → Except PyErr β) :
    ((Except.error e : Except PyErr α) >>= f) = Except.error e := rfl

theorem asStrOpt_optStrVal (x : Option String) : asStrOpt (optStrVal x) = Except.ok x := by
  cases x <;> rfl

theorem AgentRole.py_value_role (r : AgentRole) :
    AgentRole.py (Value.str r.value) = Except.ok r := by
  simp [AgentRole.py, AgentRole.ofValue_value_role]

theorem MessageType.py_value_type (t : MessageType) :
    MessageType.py (Value.str t.value) = Except.ok t := by
  simp [MessageType.py, MessageType.ofValue_value_type]

theorem dget_to_dict_message_id (m : Message) :
    dget m.to_dict "message_id" = Value.str m.message_id := rfl

theorem ditem_to_dict_sender_id (m : Message) :
    ditem m.to_dict "sender_id" = Except.ok (Value.str m.sender_id) := rfl

theorem ditem_to_dict_sender_role (m : Message) :
    ditem m.to_dict "sender_role" = Except.ok (Value.str m.sender_role.value) := rfl

theorem dget_to_dict_recipient_id (m : Message) :
    dget m.to_dict "recipient_id" = optStrVal m.recipient_id := by
  cases h : m.recipient_id <;> simp [Message.to_dict, dget, dictFind, h]

theorem dget_to_dict_recipient_role (m : Message) :
    dget m.to_dict "recipient_role" = optRoleVal m.recipient_role := by
  cases h : m.recipient_role <;> simp [Message.to_dict, dget, dictFind, h]

theorem ditem_to_dict_message_type (m : Message) :
    ditem m.to_dict "message_type" = Except.ok (Value.str m.message_type.value) := rfl

theorem ditem_to_dict_content (m : Message) :
    ditem m.to_dict "content" = Except.ok (Value.dict m.content) := rfl

theorem dget_to_dict_in_reply_to (m : Message) :
    dget m.to_dict "in_reply_to" = optStrVal m.in_reply_to := by
  cases h : m.in_reply_to <;> simp [Message.to_dict, dget, dictFind, h]

theorem dget_to_dict_timestamp (m : Message) :
    dget m.to_dict "timestamp" = Value.str (isoformat m.timestamp) := rfl

theorem readRecipientRole_to_dict (m : Message) :
    readRecipientRole m.to_dict = Except.ok m.recipient_role := by
  cases h : m.recipient_role with
  | none =>
    simp [readRecipientRole, dget_to_dict_recipient_role, h, optRoleVal, Value.truthy,
      pure, Except.pure]
  | some r =>
    simp [readRecipientRole, dget_to_dict_recipient_role, h, optRoleVal, Value.truthy,
      AgentRole.value_ne_empty r, AgentRole.py_value_role, except_bind_ok]

theorem readTimestamp_to_dict (m : Message) :
    readTimestamp m.to_dict = Except.ok (some m.timestamp) := by
  simp [readTimestamp, dget_to_dict_timestamp, isoformat_truthy,
    fromisoformat_isoformat, except_bind_ok]

theorem from_dict_to_dict (m : Message) (u : String) (now : Nat)
    (h : m.message_id ≠ "") :
    Message.from_dict m.to_dict u now = Except.ok m := by
  unfold Message.from_dict
  rw [dget_to_dict_message_id, ditem_to_dict_sender_id, ditem_to_dict_sender_role,
    dget_to_dict_recipient_id, readRecipientRole_to_dict, ditem_to_dict_message_type,
    ditem_to_dict_content, dget_to_dict_in_reply_to, readTimestamp_to_dict]
  have h1 : asStrOpt (Value.str m.message_id) = Except.ok (some m.message_id) := rfl
  have h2 : asStr (Value.str m.sender_id) = Except.ok m.sender_id := rfl
  have h3 : asDict (Value.dict m.content) = Except.ok m.content := rfl
  simp only [h1, h2, h3, AgentRole.py_value_role, MessageType.py_value_type,
    asStrOpt_optStrVal, except_bind_ok]
  cases m with
  | mk mid sid sr rid rr mt c irt ts =>
    simp [Message.init, h, pure, Except.pure]

/-- A subscribed agent as the bus sees it: `oid` is the Python object
identity (distinct live `Agent` objects carry distinct `oid`s, and two
`AgentObj` values are equal exactly when they denote the same object, which
is how `list.remove` and `dict` membership compare agents), together with the
`agent_id` and `role` attributes read by the bus. -/
structure AgentObj where
  oid : Nat
  agent_id : String
  role : AgentRole
deriving DecidableEq, Repr

/-- The mutable state of the `MessageBus` singleton plus the inboxes of all
agents: `subscribers` is the id directory (`Dict[str, Agent]`, insertion
ordered), `role_subscribers` maps every role to its subscription list
(initialised to `[]` for every role), and `inboxes` maps an agent object to
the contents of its `asyncio.Queue` (oldest first); `receive_message` is the
enqueue at the back. -/
structure BusState where
  subscribers : List (String × AgentObj)
  role_subscribers : AgentRole → List AgentObj
  inboxes : Nat → List Message

/-- Embeds `MessageBus.subscribe`: unconditional id-directory write plus an
unconditional append to the role list. -/
def subscribe (st : BusState) (a : AgentObj) : BusState :=
  { st with
    subscribers := dictSet st.subscribers a.agent_id a
    role_subscribers := fun r =>
      if r = a.role then st.role_subscribers r ++ [a] else st.role_subscribers r }

/-- Embeds `MessageBus.unsubscribe`: when the id is known, the stored agent is
removed from its role list (`list.remove`, first occurrence) and the directory
entry deleted; an unknown id is a no-op. -/
def unsubscribe (st : BusState) (agentId : String) : BusState :=
  match dictFind st.subscribers agentId with
  | some a =>
    { st with
      subscribers := dictDel st.subscribers agentId
      role_subscribers := fun r =>
        if r = a.role then (st.role_subscribers r).erase a else st.role_subscribers r }
  | Option.none => st

/-- One delivery, `await agent.receive_message(message)`: the message joins
the back of the queue of that agent. -/
def deliver (st : BusState) (a : AgentObj) (m : Message) : BusState :=
  { st with
    inboxes := fun o => if o = a.oid then st.inboxes o ++ [m] else st.inboxes o }

/-- The fan-out loop `for agent in agents: await agent.receive_message(message)`,
also returning the delivery trace (receiving `oid`s in delivery order). -/
def deliverAll (st : BusState) (l : List AgentObj) (m : Message) :
    BusState × List Nat :=
  match l with
  | [] => (st, [])
  | a :: rest =>
    let r := deliverAll (deliver st a m) rest m
    (r.1, a.oid :: r.2)

/-- Log lines the routing and dispatch code can emit. -/
inductive LogEvent where
  | recipientNotFound (rid : String)
  | noHandlerFor (t : MessageType) (agentId : String)
deriving DecidableEq, Repr

/-- The two untargeted branches of `MessageBus.publish`: role fan-out when
`recipient_role` is truthy, otherwise full broadcast over
`self.subscribers.values()` in directory insertion order. -/
def publishUntargeted (st : BusState) (m : Message) :
    BusState × List Nat × Option LogEvent :=
  match m.recipient_role with
  | some r =>
    let d := deliverAll st (st.role_subscribers r) m
    (d.1, d.2, Option.none)
  | Option.none =>
    let d := deliverAll st (st.subscribers.map Prod.snd) m
    (d.1, d.2, Option.none)

/-- Embeds `MessageBus.publish`. A truthy `recipient_id` (Python truthiness:
a non-empty string) routes to the directory entry when present, otherwise
logs "recipient not found" and drops the message; a falsy `recipient_id`
falls through to the role/broadcast branches. Returns the new state, the
delivery trace, and the log line if any; the function is total, so `publish`
never raises when deliveries succeed (base `Agent.receive_message` is an
unbounded-queue put, which does not fail). -/
def publish (st : BusState) (m : Message) : BusState × List Nat × Option LogEvent :=
  match m.recipient_id with
  | some rid =>
    if rid = "" then publishUntargeted st m
    else
      match dictFind st.subscribers rid with
      | some a => (deliver st a m, [a.oid], Option.none)
      | Option.none => (st, [], some (LogEvent.recipientNotFound rid))
  | Option.none => publishUntargeted st m

/-- The fan-out loop when a delivery can raise (an agent whose
`receive_message` fails, e.g. an overriding subclass): the loop body has no
`try`, so the first raising delivery aborts the remaining iterations and the
exception propagates (third component). `fail` gives the exception raised by
the `receive_message` of a given recipient, if any. -/
def deliverAllExc (fail : Nat → Option PyErr) (st : BusState) (l : List AgentObj)
    (m : Message) : BusState × List Nat × Option PyErr :=
  match l with
  | [] => (st, [], Option.none)
  | a :: rest =>
    match fail a.oid with
    | some e => (st, [], some e)
    | Option.none =>
      let r := deliverAllExc fail (deliver st a m) rest m
      (r.1, a.oid :: r.2.1, r.2.2)

/-- Embeds `MessageBus.publish` under the failing-delivery model: identical
routing structure, with every `await agent.receive_message(message)` allowed
to raise according to `fail`. `publish` contains no exception handler, so any
raise escapes to the caller. -/
def publishExc (fail : Nat → Option PyErr) (st : BusState) (m : Message) :
    BusState × List Nat × Option PyErr :=
  match m.recipient_id with
  | some rid =>
    if rid = "" then
      match m.recipient_role with
      | some r => deliverAllExc fail st (st.role_subscribers r) m
      | Option.none => deliverAllExc fail st (st.subscribers.map Prod.snd) m
    else
      match dictFind st.subscribers rid with
      | some a =>
        match fail a.oid with
        | some e => (st, [], some e)
        | Option.none => (deliver st a m, [a.oid], Option.none)
      | Option.none => (st, [], Option.none)
  | Option.none =>
    match m.recipient_role with
    | some r => deliverAllExc fail st (st.role_subscribers r) m
    | Option.none => deliverAllExc fail st (st.subscribers.map Prod.snd) m

/-- A message handler as stored in `Agent.message_handlers`: it may return a
reply, return `None`, or raise. -/
def HandlerFn : Type := Message → Except PyErr (Option Message)

/-- The handler table and identity of one agent, for the dispatch model. -/
structure AgentH where
  agent_id : String
  role : AgentRole
  message_handlers : List (MessageType × HandlerFn)

/-- Dict lookup in `self.message_handlers` keyed by `MessageType`. -/
def findHandler : List (MessageType × HandlerFn) → MessageType → Option HandlerFn
  | [], _ => Option.none
  | (t, h) :: rest, mt => if t = mt then some h else findHandler rest mt

/-- Embeds `Agent.handle_message`: when a handler is registered for the
type of the message, its result — including any exception it raises — is returned
unchanged (the source has no `try`/`except` around the call); otherwise a
warning is logged and `None` returned. -/
def handle_message (a : AgentH) (m : Message) :
    Except PyErr (Option Message) × List LogEvent :=
  match findHandler a.message_handlers m.message_type with
  | some h => (h m, [])
  | Option.none =>
    (Except.ok Option.none, [LogEvent.noHandlerFor m.message_type a.agent_id])

/-- Control position of `Agent.run` between scheduling steps: `entry` is the
top of `run` (before `self.running = True`), `checkCond` the `while` test,
`awaitGet` the suspension inside `await self.message_queue.get()`,
`processing` the body from `handle_message` through `task_done`. -/
inductive LoopPhase where
  | entry
  | checkCond
  | awaitGet
  | processing
  | exited
deriving DecidableEq, Repr

/-- Configuration of the run loop of one agent: control phase, the local
`message` variable, the `self.running` flag and the inbox queue. -/
structure LoopConfig where
  phase : LoopPhase
  current : Option Message
  running : Bool
  queue : List Message

/-- One scheduling step of `Agent.run`. At `awaitGet` with an empty queue the
coroutine stays suspended in `queue.get()` — the step stutters; nothing in
`run` or `stop` ever wakes it without a new message. The whole loop body
(dispatch, optional `send_message`, `task_done`) is one `processing` step,
which is the coarsest faithful rendering: the body contains no operation that
re-reads `self.running` before the next `while` test. -/
def loopStep (c : LoopConfig) : LoopConfig :=
  match c.phase with
  | .entry => { c with running := true, phase := .checkCond }
  | .checkCond =>
    if c.running then { c with phase := .awaitGet } else { c with phase := .exited }
  | .awaitGet =>
    match c.queue with
    | [] => c
    | m :: rest => { c with current := some m, queue := rest, phase := .processing }
  | .processing => { c with phase := .checkCond }
  | .exited => c

/-- Iterated scheduling steps. -/
def loopStepN : Nat → LoopConfig → LoopConfig
  | 0, c => c
  | n + 1, c => loopStepN n (loopStep c)

/-- Embeds `Agent.stop`: clears the running flag, and nothing else. -/
def stopAgent (c : LoopConfig) : LoopConfig := { c with running := false }

/-- The run loop eventually exits from configuration `c` under fair
scheduling with no external message arrivals. -/
def exitsEventually (c : LoopConfig) : Prop :=
  ∃ n, (loopStepN n c).phase = LoopPhase.exited

/-- One anomaly record as appended by `CoordinatorAgent.handle_anomaly_alert`. -/
structure AnomalyRecord where
  type : Value
  severity : Value
  reported_by : String
  timestamp : Nat
  details : Value

/-- The coordinator ledger touched by the anomaly handler. -/
structure CoordinatorState where
  anomalies : List AnomalyRecord

/-- Embeds `CoordinatorAgent.handle_anomaly_alert`: appends one full record
to `self.anomalies` and returns the acknowledgment RESPONSE built by the
`Message` constructor (fresh id, current time). `selfId`/`selfRole` are the
coordinator fields `agent_id` and `role`. -/
def handle_anomaly_alert (selfId : String) (selfRole : AgentRole)
    (st : CoordinatorState) (msg : Message) (now : Nat) (freshUuid : String) :
    CoordinatorState × Message :=
  ({ anomalies := st.anomalies ++
      [{ type := dget msg.content "anomaly_type"
         severity := dget msg.content "severity"
         reported_by := msg.sender_id
         timestamp := now
         details := dgetD msg.content "details" (Value.dict []) }] },
   Message.init selfId selfRole MessageType.response
     [("status", Value.str "acknowledged")] (some msg.sender_id)
     (some msg.sender_role) Option.none (some msg.message_id) Option.none
     freshUuid now)

theorem deliver_subscribers (st : BusState) (a : AgentObj) (m : Message) :
    (deliver st a m).subscribers = st.subscribers := rfl

theorem deliver_inboxes (st : BusState) (a : AgentObj) (m : Message) (o : Nat) :
    (deliver st a m).inboxes o =
      if o = a.oid then st.inboxes o ++ [m] else st.inboxes o := rfl

theorem deliverAll_trace (m : Message) :
    ∀ (l : List AgentObj) (st : BusState),
      (deliverAll st l m).2 = l.map AgentObj.oid := by
  intro l
  induction l with
  | nil => intro st; rfl
  | cons a rest ih =>
    intro st
    simp only [deliverAll, List.map_cons, ih]

theorem deliverAll_inboxes (m : Message) :
    ∀ (l : List AgentObj) (st : BusState) (o : Nat),
      (deliverAll st l m).1.inboxes o =
        st.inboxes o ++ List.replicate ((l.map AgentObj.oid).count o) m := by
  intro l
  induction l with
  | nil => intro st o; simp [deliverAll]
  | cons a rest ih =>
    intro st o
    simp only [deliverAll, ih, deliver_inboxes, List.map_cons, List.count_cons]
    by_cases h : a.oid = o
    · subst h
      simp [List.replicate_succ, List.append_assoc]
    · have h2 : ¬ o = a.oid := fun hh => h hh.symm
      simp [h, h2]

theorem deliverAllExc_ok (fail : Nat → Option PyErr) (m : Message) :
    ∀ (l : List AgentObj) (st : BusState), (∀ b ∈ l, fail b.oid = Option.none) →
      deliverAllExc fail st l m = ((deliverAll st l m).1, (deliverAll st l m).2, Option.none) := by
  intro l
  induction l with
  | nil => intro st _; rfl
  | cons a rest ih =>
    intro st h
    have ha : fail a.oid = Option.none := h a (List.mem_cons_self a rest)
    have hrest : ∀ b ∈ rest, fail b.oid = Option.none :=
      fun b hb => h b (List.mem_cons_of_mem a hb)
    simp only [deliverAllExc, deliverAll, ha, ih (deliver st a m) hrest]

theorem deliverAllExc_split (fail : Nat → Option PyErr) (m : Message) (a : AgentObj)
    (e : PyErr) (he : fail a.oid = some e) (l2 : List AgentObj) :
    ∀ (l1 : List AgentObj) (st : BusState), (∀ b ∈ l1, fail b.oid = Option.none) →
      deliverAllExc fail st (l1 ++ a :: l2) m =
        ((deliverAll st l1 m).1, (deliverAll st l1 m).2, some e) := by
  intro l1
  induction l1 with
  | nil => intro st _; simp [deliverAllExc, deliverAll, he]
  | cons b rest ih =>
    intro st h
    have hb : fail b.oid = Option.none := h b (List.mem_cons_self b rest)
    have hrest : ∀ x ∈ rest, fail x.oid = Option.none :=
      fun x hx => h x (List.mem_cons_of_mem b hx)
    simp only [List.cons_append, deliverAllExc, deliverAll, hb, List.append_eq,
      ih (deliver st b m) hrest]

theorem dictFind_dictDel_self {α : Type} (k : String) :
    ∀ d : List (String × α), dictFind (dictDel d k) k = Option.none := by
  intro d
  induction d with
  | nil => rfl
  | cons p rest ih =>
    by_cases h : p.1 = k
    · simp [dictDel, h, ih]
    · simp [dictDel, dictFind, h, ih]

theorem dictHasKey_false_of_countP {α : Type} (k : String) :
    ∀ d : List (String × α),
      d.countP (fun p => decide (p.1 = k)) = 0 → dictHasKey d k = false := by
  intro d
  induction d with
  | nil => intro _; rfl
  | cons p rest ih =>
    intro h
    rw [List.countP_cons] at h
    by_cases hp : p.1 = k
    · simp [hp] at h
    · simp only [dictHasKey, if_neg hp]
      exact ih (by simpa [hp] using h)

theorem dictHasKey_append_self {α : Type} (k : String) (v : α) :
    ∀ d : List (String × α), dictHasKey (d ++ [(k, v)]) k = true := by
  intro d
  induction d with
  | nil => simp [dictHasKey]
  | cons p rest ih =>
    by_cases hp : p.1 = k <;> simp [dictHasKey, hp, ih]

theorem map_keep_of_countP_zero {α : Type} (k : String) (v : α) :
    ∀ d : List (String × α), d.countP (fun p => decide (p.1 = k)) = 0 →
      d.map (fun p => if p.1 = k then (k, v) else p) = d := by
  intro d
  induction d with
  | nil => intro _; rfl
  | cons p rest ih =>
    intro h
    rw [List.countP_cons] at h
    by_cases hp : p.1 = k
    · simp [hp] at h
    · simp only [List.map_cons, if_neg hp]
      rw [ih (by simpa [hp] using h)]

theorem dictSet_twice_fresh {α : Type} (k : String) (v w : α)
    (d : List (String × α)) (h : d.countP (fun p => decide (p.1 = k)) = 0) :
    dictSet (dictSet d k v) k w = d ++ [(k, w)] := by
  have h1 : dictSet d k v = d ++ [(k, v)] := by
    simp [dictSet, dictHasKey_false_of_countP k d h]
  rw [h1]
  simp only [dictSet, dictHasKey_append_self k v d, if_true, List.map_append,
    map_keep_of_countP_zero k w d h, List.map_cons]
  simp

theorem dictFind_append_self {α : Type} (k : String) (v : α) :
    ∀ d : List (String × α), d.countP (fun p => decide (p.1 = k)) = 0 →
      dictFind (d ++ [(k, v)]) k = some v := by
  intro d
  induction d with
  | nil => intro _; simp [dictFind]
  | cons p rest ih =>
    intro h
    rw [List.countP_cons] at h
    by_cases hp : p.1 = k
    · simp [hp] at h
    · simp only [List.cons_append, dictFind, if_neg hp]
      exact ih (by simpa [hp] using h)

/-- A run loop parked in `await self.message_queue.get()` on an empty inbox,
after `stop()` has been called. -/
def parkedStopped : LoopConfig :=
  stopAgent { phase := LoopPhase.awaitGet, current := Option.none,
              running := true, queue := [] }

/-- C1 counterexample: with an empty inbox and no further arrivals, the run
loop of a stopped agent never exits — `stop()` alone does not bound loop
exit, contradicting the claim at this concrete configuration. -/
theorem stopped_empty_inbox_never_exits : ¬ exitsEventually parkedStopped := by
  have hfix : ∀ n, loopStepN n parkedStopped = parkedStopped := by
    intro n
    induction n with
    | zero => rfl
    | succ k ih =>
      show loopStepN k (loopStep parkedStopped) = parkedStopped
      rw [show loopStep parkedStopped = parkedStopped from rfl]
      exact ih
  rintro ⟨n, hn⟩
  rw [hfix n] at hn
  exact absurd hn (by decide)

/-- C1 amended: after `stop()`, the loop exits within three scheduling steps
once a message is available at the `get` suspension point, and within one
step from the `while` test; only the empty-inbox case (the counterexample)
stays blocked. -/
theorem stop_exits_after_next_message :
    (∀ (m : Message) (rest : List Message) (cur : Option Message),
      (loopStepN 3 (stopAgent ⟨LoopPhase.awaitGet, cur, true, m :: rest⟩)).phase =
        LoopPhase.exited) ∧
    (∀ (cur : Option Message) (q : List Message),
      (loopStepN 1 (stopAgent ⟨LoopPhase.checkCond, cur, true, q⟩)).phase =
        LoopPhase.exited) := by
  constructor
  · intro m rest cur; rfl
  · intro cur q; rfl

/-- A registered handler that raises (`HandlerFailure` in the taxonomy of the spec). -/
def crashingHandler : HandlerFn := fun _ => Except.error (PyErr.handlerExc "boom")

/-- An agent whose REQUEST handler raises. -/
def crashingAgent : AgentH :=
  { agent_id := "dc_1", role := AgentRole.data_collector,
    message_handlers := [(MessageType.request, crashingHandler)] }

/-- An agent with no handlers registered. -/
def bareAgent : AgentH :=
  { agent_id := "sm_1", role := AgentRole.system_monitor, message_handlers := [] }

/-- A concrete REQUEST message used to exercise dispatch. -/
def msgRequest : Message :=
  { message_id := "m2", sender_id := "co_1", sender_role := AgentRole.coordinator,
    recipient_id := some "dc_1", recipient_role := Option.none,
    message_type := MessageType.request, content := [],
    in_reply_to := Option.none, timestamp := 0 }

/-- C2 counterexample: `handle_message` does raise — the exception of a
registered handler escapes uncaught, contradicting "never raises" at this
concrete agent and message. -/
theorem handle_message_raises_on_crashing_handler :
    (handle_message crashingAgent msgRequest).1 =
      Except.error (PyErr.handlerExc "boom") := rfl

/-- C2 amended: `handle_message` returns the outcome of the registered handler
unchanged, propagating any exception it raises; only in the no-handler case
does it log a diagnostic and return no reply without raising. -/
theorem handle_message_dispatch (a : AgentH) (m : Message) :
    (∀ h, findHandler a.message_handlers m.message_type = some h →
      handle_message a m = (h m, [])) ∧
    (findHandler a.message_handlers m.message_type = Option.none →
      handle_message a m =
        (Except.ok Option.none, [LogEvent.noHandlerFor m.message_type a.agent_id])) := by
  constructor
  · intro h hh
    simp [handle_message, hh]
  · intro hh
    simp [handle_message, hh]

/-- C2 witness: the dispatch theorem applied to the crashing agent (handler
branch) and to a handlerless agent (diagnostic branch). -/
theorem handle_message_dispatch_witness :
    findHandler crashingAgent.message_handlers msgRequest.message_type =
      some crashingHandler ∧
    handle_message crashingAgent msgRequest = (crashingHandler msgRequest, []) ∧
    findHandler bareAgent.message_handlers msgRequest.message_type = Option.none ∧
    handle_message bareAgent msgRequest =
      (Except.ok Option.none, [LogEvent.noHandlerFor MessageType.request "sm_1"]) :=
  ⟨rfl, (handle_message_dispatch crashingAgent msgRequest).1 crashingHandler rfl,
   rfl, (handle_message_dispatch bareAgent msgRequest).2 rfl⟩

/-- C3: every ANOMALY_ALERT handled by the coordinator appends exactly one
full record to the anomalies ledger and returns exactly one RESPONSE with
status "acknowledged", correlated by `in_reply_to` and addressed to the
sender. -/
theorem anomaly_alert_acknowledged (selfId : String) (selfRole : AgentRole)
    (st : CoordinatorState) (msg : Message) (now : Nat) (freshUuid : String)
    (_hm : msg.message_type = MessageType.anomaly_alert) :
    (handle_anomaly_alert selfId selfRole st msg now freshUuid).1.anomalies =
      st.anomalies ++
        [{ type := dget msg.content "anomaly_type"
           severity := dget msg.content "severity"
           reported_by := msg.sender_id
           timestamp := now
           details := dgetD msg.content "details" (Value.dict []) }] ∧
    (handle_anomaly_alert selfId selfRole st msg now freshUuid).2.message_type =
      MessageType.response ∧
    dget (handle_anomaly_alert selfId selfRole st msg now freshUuid).2.content
      "status" = Value.str "acknowledged" ∧
    (handle_anomaly_alert selfId selfRole st msg now freshUuid).2.in_reply_to =
      some msg.message_id ∧
    (handle_anomaly_alert selfId selfRole st msg now freshUuid).2.recipient_id =
      some msg.sender_id :=
  ⟨rfl, rfl, rfl, rfl, rfl⟩

/-- A concrete anomaly alert for the C3 witness. -/
def msgAlert : Message :=
  { message_id := "m-1", sender_id := "det_1",
    sender_role := AgentRole.anomaly_detector, recipient_id := Option.none,
    recipient_role := some AgentRole.coordinator,
    message_type := MessageType.anomaly_alert,
    content := [("anomaly_type", Value.str "spike"), ("severity", Value.str "high")],
    in_reply_to := Option.none, timestamp := 3 }

/-- C3 witness: the acknowledgment theorem evaluated on a concrete alert. -/
theorem anomaly_alert_acknowledged_witness :
    msgAlert.message_type = MessageType.anomaly_alert ∧
    ((handle_anomaly_alert "coordinator_1" AgentRole.coordinator
        { anomalies := [] } msgAlert 7 "u1").1.anomalies =
      [{ type := Value.str "spike", severity := Value.str "high",
         reported_by := "det_1", timestamp := 7, details := Value.dict [] }] ∧
     (handle_anomaly_alert "coordinator_1" AgentRole.coordinator
        { anomalies := [] } msgAlert 7 "u1").2.message_type = MessageType.response ∧
     dget (handle_anomaly_alert "coordinator_1" AgentRole.coordinator
        { anomalies := [] } msgAlert 7 "u1").2.content "status" =
       Value.str "acknowledged" ∧
     (handle_anomaly_alert "coordinator_1" AgentRole.coordinator
        { anomalies := [] } msgAlert 7 "u1").2.in_reply_to = some "m-1" ∧
     (handle_anomaly_alert "coordinator_1" AgentRole.coordinator
        { anomalies := [] } msgAlert 7 "u1").2.recipient_id = some "det_1") :=
  ⟨rfl, anomaly_alert_acknowledged "coordinator_1" AgentRole.coordinator
    { anomalies := [] } msgAlert 7 "u1" rfl⟩

/-- C4: a message with a (truthy) `recipient_id` is delivered exactly once to
the directory entry for that id and to no other inbox; when the id is absent,
the miss is logged, nothing is delivered, and `publish` returns normally. -/
theorem publish_direct_routing (st : BusState) (m : Message) (rid : String)
    (hr : m.recipient_id = some rid) (hne : rid ≠ "") :
    (∀ a, dictFind st.subscribers rid = some a →
      (publish st m).2.1 = [a.oid] ∧
      (∀ o, (publish st m).1.inboxes o =
        if o = a.oid then st.inboxes o ++ [m] else st.inboxes o) ∧
      (publish st m).2.2 = Option.none) ∧
    (dictFind st.subscribers rid = Option.none →
      (publish st m).1 = st ∧ (publish st m).2.1 = [] ∧
      (publish st m).2.2 = some (LogEvent.recipientNotFound rid)) := by
  constructor
  · intro a ha
    refine ⟨?_, ?_, ?_⟩ <;> simp [publish, hr, hne, ha, deliver_inboxes]
  · intro ha
    refine ⟨?_, ?_, ?_⟩ <;> simp [publish, hr, hne, ha]

/-- Three distinct agent objects used in routing witnesses. -/
def agentA : AgentObj := { oid := 1, agent_id := "c1", role := AgentRole.coordinator }

def agentB : AgentObj := { oid := 2, agent_id := "c2", role := AgentRole.coordinator }

def agentC : AgentObj := { oid := 3, agent_id := "c3", role := AgentRole.coordinator }

/-- A bus with the three coordinator agents subscribed, empty inboxes. -/
def busThree : BusState :=
  { subscribers := [("c1", agentA), ("c2", agentB), ("c3", agentC)]
    role_subscribers := fun r =>
      if r = AgentRole.coordinator then [agentA, agentB, agentC] else []
    inboxes := fun _ => [] }

/-- A direct message to agent id "c2". -/
def msgDirect : Message :=
  { message_id := "d1", sender_id := "c1", sender_role := AgentRole.coordinator,
    recipient_id := some "c2", recipient_role := Option.none,
    message_type := MessageType.notification, content := [],
    in_reply_to := Option.none, timestamp := 0 }

/-- A direct message to an id that is not in the directory. -/
def msgDirectMiss : Message :=
  { msgDirect with recipient_id := some "ghost" }

/-- C4 witness: direct routing evaluated on a concrete bus, in both the
present-recipient and missing-recipient branches. -/
theorem publish_direct_routing_witness :
    msgDirect.recipient_id = some "c2" ∧ "c2" ≠ "" ∧
    dictFind busThree.subscribers "c2" = some agentB ∧
    ((publish busThree msgDirect).2.1 = [2] ∧
     (∀ o, (publish busThree msgDirect).1.inboxes o =
       if o = 2 then [msgDirect] else []) ∧
     (publish busThree msgDirect).2.2 = Option.none) ∧
    ((publish busThree msgDirectMiss).1 = busThree ∧
     (publish busThree msgDirectMiss).2.1 = [] ∧
     (publish busThree msgDirectMiss).2.2 =
       some (LogEvent.recipientNotFound "ghost")) :=
  ⟨rfl, by decide, rfl,
   (publish_direct_routing busThree msgDirect "c2" rfl (by decide)).1 agentB rfl,
   (publish_direct_routing busThree msgDirectMiss "ghost" rfl (by decide)).2 rfl⟩

/-- C5: a message with no (truthy) `recipient_id` and `recipient_role = R` is
delivered once to each agent in the role list for R, in list order (the
trace), and to no inbox outside that list — in particular to no agent
subscribed only under a different role. The distinct-identity hypothesis says
the role list holds no two entries denoting the same inbox, the situation of N distinct
agents the claim describes (the duplicate-subscription quirk is the subject
of claim C9). -/
theorem publish_role_fanout (st : BusState) (m : Message) (R : AgentRole)
    (hid : m.recipient_id = Option.none ∨ m.recipient_id = some "")
    (hrole : m.recipient_role = some R)
    (hnd : ((st.role_subscribers R).map AgentObj.oid).Nodup) :
    (publish st m).2.1 = (st.role_subscribers R).map AgentObj.oid ∧
    (∀ a ∈ st.role_subscribers R,
      (publish st m).1.inboxes a.oid = st.inboxes a.oid ++ [m]) ∧
    (∀ o, o ∉ (st.role_subscribers R).map AgentObj.oid →
      (publish st m).1.inboxes o = st.inboxes o) := by
  have hpub : publish st m =
      ((deliverAll st (st.role_subscribers R) m).1,
       (deliverAll st (st.role_subscribers R) m).2, Option.none) := by
    rcases hid with h | h <;> simp [publish, publishUntargeted, h, hrole]
  refine ⟨?_, ?_, ?_⟩
  · rw [hpub]
    exact deliverAll_trace m (st.role_subscribers R) st
  · intro a ha
    have hc : ((st.role_subscribers R).map AgentObj.oid).count a.oid = 1 :=
      List.count_eq_one_of_mem hnd (List.mem_map_of_mem AgentObj.oid ha)
    rw [hpub]
    simp [deliverAll_inboxes m (st.role_subscribers R) st a.oid, hc]
  · intro o ho
    have hc : ((st.role_subscribers R).map AgentObj.oid).count o = 0 :=
      List.count_eq_zero_of_not_mem ho
    rw [hpub]
    simp [deliverAll_inboxes m (st.role_subscribers R) st o, hc]

/-- A role-addressed message (no recipient id) to the coordinator group. -/
def msgRole : Message :=
  { message_id := "r1", sender_id := "x", sender_role := AgentRole.system_monitor,
    recipient_id := Option.none, recipient_role := some AgentRole.coordinator,
    message_type := MessageType.system_status, content := [],
    in_reply_to := Option.none, timestamp := 0 }

/-- C5 witness: the fan-out theorem evaluated on the three-agent bus. -/
theorem publish_role_fanout_witness :
    msgRole.recipient_id = Option.none ∧
    msgRole.recipient_role = some AgentRole.coordinator ∧
    ((busThree.role_subscribers AgentRole.coordinator).map AgentObj.oid).Nodup ∧
    ((publish busThree msgRole).2.1 = [1, 2, 3] ∧
     (∀ a ∈ busThree.role_subscribers AgentRole.coordinator,
       (publish busThree msgRole).1.inboxes a.oid = [msgRole]) ∧
     (∀ o, o ∉ ([1, 2, 3] : List Nat) →
       (publish busThree msgRole).1.inboxes o = [])) :=
  ⟨rfl, rfl, by decide,
   publish_role_fanout busThree msgRole AgentRole.coordinator (Or.inl rfl) rfl
     (by decide)⟩

/-- Per-recipient delivery outcome in which `receive_message` of the
second agent raises. -/
def failSecond : Nat → Option PyErr :=
  fun o => if o = 2 then some (PyErr.deliveryError "queue closed") else Option.none

/-- C6 counterexample: with three role subscribers and the second delivery
raising, `publish` delivers only to the first agent — the third receives
nothing — and the exception escapes `publish`, contradicting both "still
delivers to every remaining recipient" and "never raises". -/
theorem publish_delivery_failure_aborts :
    (publishExc failSecond busThree msgRole).2.2 =
      some (PyErr.deliveryError "queue closed") ∧
    (publishExc failSecond busThree msgRole).2.1 = [1] ∧
    (publishExc failSecond busThree msgRole).1.inboxes 3 = [] :=
  ⟨rfl, rfl, rfl⟩

/-- C6 amended: when a fan-out delivery raises, recipients before the failing
one (in iteration order) have received the message, no later inbox is
touched, and the exception propagates out of `publish` — the loop body has no
handler, so failures are not isolated per-recipient. -/
theorem publish_delivery_failure_propagates (fail : Nat → Option PyErr)
    (st : BusState) (m : Message) (R : AgentRole) (a : AgentObj) (e : PyErr)
    (l1 l2 : List AgentObj)
    (hid : m.recipient_id = Option.none ∨ m.recipient_id = some "")
    (hrole : m.recipient_role = some R)
    (hsplit : st.role_subscribers R = l1 ++ a :: l2)
    (h1 : ∀ b ∈ l1, fail b.oid = Option.none)
    (ha : fail a.oid = some e) :
    (publishExc fail st m).2.2 = some e ∧
    (publishExc fail st m).2.1 = l1.map AgentObj.oid ∧
    (∀ o, o ∉ l1.map AgentObj.oid →
      (publishExc fail st m).1.inboxes o = st.inboxes o) := by
  have hpub : publishExc fail st m = deliverAllExc fail st (l1 ++ a :: l2) m := by
    rcases hid with h | h <;> simp [publishExc, h, hrole, hsplit]
  rw [hpub, deliverAllExc_split fail m a e ha l2 l1 st h1]
  refine ⟨rfl, ?_, ?_⟩
  · exact deliverAll_trace m l1 st
  · intro o ho
    have hc : (l1.map AgentObj.oid).count o = 0 :=
      List.count_eq_zero_of_not_mem ho
    simp [deliverAll_inboxes m l1 st o, hc]

/-- C6 witness: the propagation theorem applied to the three-agent bus with
the second delivery raising. -/
theorem publish_delivery_failure_propagates_witness :
    msgRole.recipient_id = Option.none ∧
    msgRole.recipient_role = some AgentRole.coordinator ∧
    busThree.role_subscribers AgentRole.coordinator = [agentA] ++ agentB :: [agentC] ∧
    (∀ b ∈ [agentA], failSecond b.oid = Option.none) ∧
    failSecond agentB.oid = some (PyErr.deliveryError "queue closed") ∧
    ((publishExc failSecond busThree msgRole).2.2 =
       some (PyErr.deliveryError "queue closed") ∧
     (publishExc failSecond busThree msgRole).2.1 = [1] ∧
     (∀ o, o ∉ ([1] : List Nat) →
       (publishExc failSecond busThree msgRole).1.inboxes o = [])) :=
  ⟨rfl, rfl, by decide, by decide, by decide,
   publish_delivery_failure_propagates failSecond busThree msgRole
     AgentRole.coordinator agentB (PyErr.deliveryError "queue closed")
     [agentA] [agentC] (Or.inl rfl) rfl (by decide) (by decide) (by decide)⟩

/-- The optional string fields of a serialized message (`message_id`,
`recipient_id`, `in_reply_to`) are absent, `None`, or strings — the shapes the
serializer produces and the typed model represents. -/
def OptShaped (d : List (String × Value)) (k : String) : Prop :=
  ∀ v, dictFind d k = some v → (∃ s, v = Value.str s) ∨ v = Value.none

/-- The `recipient_role` field is absent, `None`, falsy, or a recognised role
string. -/
def RoleShaped (d : List (String × Value)) (k : String) : Prop :=
  ∀ v, dictFind d k = some v →
    v = Value.none ∨ v = Value.str "" ∨ ∃ r : AgentRole, v = Value.str r.value

theorem OptShaped_of_find_none {d : List (String × Value)} {k : String}
    (h : dictFind d k = Option.none) : OptShaped d k := by
  intro v hv
  rw [h] at hv
  exact Option.noConfusion hv

theorem RoleShaped_of_find_none {d : List (String × Value)} {k : String}
    (h : dictFind d k = Option.none) : RoleShaped d k := by
  intro v hv
  rw [h] at hv
  exact Option.noConfusion hv

theorem asStrOpt_dget_ok (d : List (String × Value)) (k : String)
    (h : OptShaped d k) : ∃ x, asStrOpt (dget d k) = Except.ok x := by
  cases hf : dictFind d k with
  | none => exact ⟨Option.none, by simp [dget, hf, asStrOpt]⟩
  | some v =>
    rcases h v hf with ⟨s, rfl⟩ | rfl
    · exact ⟨some s, by simp [dget, hf, asStrOpt]⟩
    · exact ⟨Option.none, by simp [dget, hf, asStrOpt]⟩

theorem readRecipientRole_ok (d : List (String × Value))
    (h : RoleShaped d "recipient_role") :
    ∃ x, readRecipientRole d = Except.ok x := by
  cases hf : dictFind d "recipient_role" with
  | none =>
    exact ⟨Option.none, by simp [readRecipientRole, dget, hf, Value.truthy, pure, Except.pure]⟩
  | some v =>
    rcases h v hf with rfl | rfl | ⟨r, rfl⟩
    · exact ⟨Option.none, by simp [readRecipientRole, dget, hf, Value.truthy, pure, Except.pure]⟩
    · exact ⟨Option.none, by simp [readRecipientRole, dget, hf, Value.truthy, pure, Except.pure]⟩
    · refine ⟨some r, ?_⟩
      simp [readRecipientRole, dget, hf, Value.truthy, AgentRole.value_ne_empty r,
        AgentRole.py_value_role, except_bind_ok, pure, Except.pure]

/-- C7 amended: with the earlier-evaluated optional fields well-shaped,
parsing fails with the built-in exceptions, not `MalformedMessageError` (a
class the code never defines): an absent `message_type` key raises
`KeyError("message_type")`; an unrecognised enumeration value under
`sender_role`, `message_type`, or (when truthy) `recipient_role` raises
`ValueError` carrying that value — the first failing keyword argument in
evaluation order wins, and in every case no `Message` is constructed. -/
theorem from_dict_error_classes (d : List (String × Value)) (u : String)
    (now : Nat) (sid : String)
    (hmid : OptShaped d "message_id")
    (hsid : dictFind d "sender_id" = some (Value.str sid)) :
    (∀ rs r, dictFind d "sender_role" = some (Value.str rs) →
      AgentRole.ofValue rs = some r →
      OptShaped d "recipient_id" → RoleShaped d "recipient_role" →
      dictFind d "message_type" = Option.none →
      Message.from_dict d u now = Except.error (PyErr.keyError "message_type")) ∧
    (∀ rs, dictFind d "sender_role" = some (Value.str rs) →
      AgentRole.ofValue rs = Option.none →
      Message.from_dict d u now = Except.error (PyErr.valueError rs)) ∧
    (∀ rs r ms, dictFind d "sender_role" = some (Value.str rs) →
      AgentRole.ofValue rs = some r →
      OptShaped d "recipient_id" → RoleShaped d "recipient_role" →
      dictFind d "message_type" = some (Value.str ms) →
      MessageType.ofValue ms = Option.none →
      Message.from_dict d u now = Except.error (PyErr.valueError ms)) ∧
    (∀ rs r vs, dictFind d "sender_role" = some (Value.str rs) →
      AgentRole.ofValue rs = some r →
      OptShaped d "recipient_id" →
      dictFind d "recipient_role" = some (Value.str vs) → vs ≠ "" →
      AgentRole.ofValue vs = Option.none →
      Message.from_dict d u now = Except.error (PyErr.valueError vs)) := by
  obtain ⟨mid, hmid2⟩ := asStrOpt_dget_ok d "message_id" hmid
  have hsid2 : ditem d "sender_id" = Except.ok (Value.str sid) := by
    simp [ditem, hsid]
  refine ⟨?_, ?_, ?_, ?_⟩
  · intro rs r hrs hr hrid hrr hmt
    obtain ⟨rid, hrid2⟩ := asStrOpt_dget_ok d "recipient_id" hrid
    obtain ⟨rr, hrr2⟩ := readRecipientRole_ok d hrr
    have hrs2 : ditem d "sender_role" = Except.ok (Value.str rs) := by
      simp [ditem, hrs]
    have hpy : AgentRole.py (Value.str rs) = Except.ok r := by
      simp [AgentRole.py, hr]
    have hmt2 : ditem d "message_type" = Except.error (PyErr.keyError "message_type") := by
      simp [ditem, hmt]
    unfold Message.from_dict
    rw [hmid2, hsid2, hrs2, hmt2]
    simp only [except_bind_ok, except_bind_error, asStr, hpy, hrid2, hrr2]
  · intro rs hrs hr
    have hrs2 : ditem d "sender_role" = Except.ok (Value.str rs) := by
      simp [ditem, hrs]
    have hpy : AgentRole.py (Value.str rs) = Except.error (PyErr.valueError rs) := by
      simp [AgentRole.py, hr]
    unfold Message.from_dict
    rw [hmid2, hsid2, hrs2]
    simp only [except_bind_ok, except_bind_error, asStr, hpy]
  · intro rs r ms hrs hr hrid hrr hmt hms
    obtain ⟨rid, hrid2⟩ := asStrOpt_dget_ok d "recipient_id" hrid
    obtain ⟨rr, hrr2⟩ := readRecipientRole_ok d hrr
    have hrs2 : ditem d "sender_role" = Except.ok (Value.str rs) := by
      simp [ditem, hrs]
    have hpy : AgentRole.py (Value.str rs) = Except.ok r := by
      simp [AgentRole.py, hr]
    have hmt2 : ditem d "message_type" = Except.ok (Value.str ms) := by
      simp [ditem, hmt]
    have hmpy : MessageType.py (Value.str ms) = Except.error (PyErr.valueError ms) := by
      simp [MessageType.py, hms]
    unfold Message.from_dict
    rw [hmid2, hsid2, hrs2, hmt2]
    simp only [except_bind_ok, except_bind_error, asStr, hpy, hrid2, hrr2, hmpy]
  · intro rs r vs hrs hr hrid hrr hvs hofv
    obtain ⟨rid, hrid2⟩ := asStrOpt_dget_ok d "recipient_id" hrid
    have hrs2 : ditem d "sender_role" = Except.ok (Value.str rs) := by
      simp [ditem, hrs]
    have hpy : AgentRole.py (Value.str rs) = Except.ok r := by
      simp [AgentRole.py, hr]
    have htr : (Value.str vs).truthy = true := by
      simp [Value.truthy, bne_iff_ne]
      exact hvs
    have hrr3 : readRecipientRole d = Except.error (PyErr.valueError vs) := by
      simp [readRecipientRole, dget, hrr, htr, AgentRole.py, hofv, except_bind_error]
    unfold Message.from_dict
    rw [hmid2, hsid2, hrs2, hrr3]
    simp only [except_bind_ok, except_bind_error, asStr, hpy, hrid2]

/-- A serialized message missing the `message_type` key. -/
def dictNoType : List (String × Value) :=
  [("sender_id", Value.str "det_1"),
   ("sender_role", Value.str "anomaly_detector"),
   ("content", Value.dict [])]

/-- C7 counterexample: parsing a dict without the type key raises
`KeyError("message_type")` — a different exception from the
`MalformedMessageError` the claim names (the code never defines that class). -/
theorem from_dict_missing_type_raises_keyerror :
    Message.from_dict dictNoType "u" 0 =
      Except.error (PyErr.keyError "message_type") ∧
    PyErr.keyError "message_type" ≠ PyErr.malformedMessage :=
  ⟨rfl, by decide⟩

/-- A serialized message whose `sender_role` is not a recognised role. -/
def dictBadRole : List (String × Value) :=
  [("sender_id", Value.str "x"),
   ("sender_role", Value.str "weather_wizard")]

/-- A serialized message whose `message_type` value is not a recognised
type. -/
def dictBadType : List (String × Value) :=
  [("sender_id", Value.str "x"),
   ("sender_role", Value.str "coordinator"),
   ("message_type", Value.str "weather_report")]

/-- A serialized message whose `recipient_role` value is not a recognised
role. -/
def dictBadRecipRole : List (String × Value) :=
  [("sender_id", Value.str "x"),
   ("sender_role", Value.str "coordinator"),
   ("recipient_role", Value.str "weather_wizard")]

/-- C7 witness: the error-class theorem applied to concrete dicts, one per
trigger — missing `message_type` (KeyError), unrecognised `sender_role`,
unrecognised `message_type` value, unrecognised `recipient_role` value (each
ValueError). -/
theorem from_dict_error_classes_witness :
    dictFind dictNoType "sender_id" = some (Value.str "det_1") ∧
    dictFind dictNoType "sender_role" = some (Value.str "anomaly_detector") ∧
    AgentRole.ofValue "anomaly_detector" = some AgentRole.anomaly_detector ∧
    dictFind dictNoType "message_type" = Option.none ∧
    Message.from_dict dictNoType "u2" 1 =
      Except.error (PyErr.keyError "message_type") ∧
    dictFind dictBadRole "sender_role" = some (Value.str "weather_wizard") ∧
    AgentRole.ofValue "weather_wizard" = Option.none ∧
    Message.from_dict dictBadRole "u2" 1 =
      Except.error (PyErr.valueError "weather_wizard") ∧
    dictFind dictBadType "message_type" = some (Value.str "weather_report") ∧
    MessageType.ofValue "weather_report" = Option.none ∧
    Message.from_dict dictBadType "u2" 1 =
      Except.error (PyErr.valueError "weather_report") ∧
    dictFind dictBadRecipRole "recipient_role" =
      some (Value.str "weather_wizard") ∧
    Message.from_dict dictBadRecipRole "u2" 1 =
      Except.error (PyErr.valueError "weather_wizard") :=
  ⟨rfl, rfl, rfl, rfl,
   (from_dict_error_classes dictNoType "u2" 1 "det_1"
      (OptShaped_of_find_none rfl) rfl).1 "anomaly_detector"
      AgentRole.anomaly_detector rfl rfl (OptShaped_of_find_none rfl)
      (RoleShaped_of_find_none rfl) rfl,
   rfl, rfl,
   (from_dict_error_classes dictBadRole "u2" 1 "x"
      (OptShaped_of_find_none rfl) rfl).2.1 "weather_wizard" rfl rfl,
   rfl, rfl,
   (from_dict_error_classes dictBadType "u2" 1 "x"
      (OptShaped_of_find_none rfl) rfl).2.2.1 "coordinator"
      AgentRole.coordinator "weather_report" rfl rfl
      (OptShaped_of_find_none rfl) (RoleShaped_of_find_none rfl) rfl rfl,
   rfl,
   (from_dict_error_classes dictBadRecipRole "u2" 1 "x"
      (OptShaped_of_find_none rfl) rfl).2.2.2 "coordinator"
      AgentRole.coordinator "weather_wizard" rfl rfl
      (OptShaped_of_find_none rfl) rfl (by decide) rfl⟩

/-- A well-formed message built through the constructor, for the round-trip
witness. -/
def msgRoundTrip : Message :=
  Message.init "pe_1" AgentRole.prediction_engine MessageType.model_update
    [("records", Value.nat 100)] (some "mt_1") (some AgentRole.model_trainer)
    (some "id-42") (some "rq-7") (some 99) "uuid-x" 123

/-- C8 witness: the serialization round trip evaluated on a concrete
message. -/
theorem from_dict_to_dict_witness :
    msgRoundTrip.message_id ≠ "" ∧
    Message.from_dict msgRoundTrip.to_dict "u9" 5 = Except.ok msgRoundTrip :=
  ⟨by decide, from_dict_to_dict msgRoundTrip "u9" 5 (by decide)⟩

/-- C9: subscribing the same agent twice leaves one last-write-wins directory
entry mapping its id to the agent, but appends it to the role list twice, so
a subsequent role-targeted publish delivers two copies to its inbox. The
freshness hypotheses say the agent was not already subscribed. -/
theorem subscribe_twice_duplicates (st0 : BusState) (a : AgentObj) (m : Message)
    (hfresh : st0.subscribers.countP (fun p => decide (p.1 = a.agent_id)) = 0)
    (hoid : ∀ b ∈ st0.role_subscribers a.role, b.oid ≠ a.oid)
    (hid : m.recipient_id = Option.none)
    (hrole : m.recipient_role = some a.role) :
    dictFind (subscribe (subscribe st0 a) a).subscribers a.agent_id = some a ∧
    (subscribe (subscribe st0 a) a).subscribers.countP
      (fun p => decide (p.1 = a.agent_id)) = 1 ∧
    (subscribe (subscribe st0 a) a).role_subscribers a.role =
      st0.role_subscribers a.role ++ [a, a] ∧
    (publish (subscribe (subscribe st0 a) a) m).1.inboxes a.oid =
      st0.inboxes a.oid ++ [m, m] := by
  have hsubs : (subscribe (subscribe st0 a) a).subscribers =
      st0.subscribers ++ [(a.agent_id, a)] := by
    simp only [subscribe]
    exact dictSet_twice_fresh a.agent_id a a st0.subscribers hfresh
  have hrl : (subscribe (subscribe st0 a) a).role_subscribers a.role =
      st0.role_subscribers a.role ++ [a, a] := by
    simp [subscribe]
  refine ⟨?_, ?_, hrl, ?_⟩
  · rw [hsubs]
    exact dictFind_append_self a.agent_id a st0.subscribers hfresh
  · rw [hsubs, List.countP_append, hfresh]
    simp
  · have hpub : (publish (subscribe (subscribe st0 a) a) m).1.inboxes a.oid =
        (deliverAll (subscribe (subscribe st0 a) a)
          ((subscribe (subscribe st0 a) a).role_subscribers a.role) m).1.inboxes
          a.oid := by
      simp [publish, publishUntargeted, hid, hrole]
    have hnot : a.oid ∉ (st0.role_subscribers a.role).map AgentObj.oid := by
      intro hmem
      rcases List.mem_map.mp hmem with ⟨b, hb, hbo⟩
      exact hoid b hb hbo
    have hcz : ((st0.role_subscribers a.role).map AgentObj.oid).count a.oid = 0 :=
      List.count_eq_zero_of_not_mem hnot
    rw [hpub, deliverAll_inboxes m _ _ a.oid, hrl]
    have hinb : (subscribe (subscribe st0 a) a).inboxes a.oid = st0.inboxes a.oid := rfl
    rw [hinb]
    simp [List.count_append, hcz, List.replicate]

/-- An empty bus (the state of the singleton right after construction). -/
def emptyBus : BusState :=
  { subscribers := [], role_subscribers := fun _ => [], inboxes := fun _ => [] }

/-- The agent subscribed twice in the C9/C10 witnesses. -/
def agentMon : AgentObj :=
  { oid := 5, agent_id := "mon_1", role := AgentRole.system_monitor }

/-- A role-addressed message to the system-monitor group. -/
def msgMon : Message :=
  { message_id := "s1", sender_id := "co_1", sender_role := AgentRole.coordinator,
    recipient_id := Option.none, recipient_role := some AgentRole.system_monitor,
    message_type := MessageType.notification, content := [],
    in_reply_to := Option.none, timestamp := 0 }

/-- C9 witness: double subscription on an empty bus, then a role publish. -/
theorem subscribe_twice_duplicates_witness :
    emptyBus.subscribers.countP (fun p => decide (p.1 = "mon_1")) = 0 ∧
    (∀ b ∈ emptyBus.role_subscribers AgentRole.system_monitor, b.oid ≠ 5) ∧
    (dictFind (subscribe (subscribe emptyBus agentMon) agentMon).subscribers
        "mon_1" = some agentMon ∧
     (subscribe (subscribe emptyBus agentMon) agentMon).subscribers.countP
        (fun p => decide (p.1 = "mon_1")) = 1 ∧
     (subscribe (subscribe emptyBus agentMon) agentMon).role_subscribers
        AgentRole.system_monitor = [agentMon, agentMon] ∧
     (publish (subscribe (subscribe emptyBus agentMon) agentMon) msgMon).1.inboxes
        5 = [msgMon, msgMon]) :=
  ⟨rfl, by decide,
   subscribe_twice_duplicates emptyBus agentMon msgMon rfl (by decide) rfl rfl⟩

theorem unsubscribe_of_find_none (st : BusState) (agentId : String)
    (h : dictFind st.subscribers agentId = Option.none) :
    unsubscribe st agentId = st := by
  unfold unsubscribe
  rw [h]

/-- C10: on a bus where agent `a` is subscribed `n ≥ 2` times, one
`unsubscribe` removes the directory entry but erases only the first role-list
occurrence, leaving `n - 1` stale entries; a role publish still delivers to
`a`, and a second `unsubscribe` of the same id is a complete no-op. -/
theorem unsubscribe_stale_role_entries (st : BusState) (a : AgentObj) (n : Nat)
    (m : Message)
    (hdir : dictFind st.subscribers a.agent_id = some a)
    (hcount : (st.role_subscribers a.role).count a = n)
    (hn : 2 ≤ n)
    (hid : m.recipient_id = Option.none)
    (hrole : m.recipient_role = some a.role) :
    dictFind (unsubscribe st a.agent_id).subscribers a.agent_id = Option.none ∧
    ((unsubscribe st a.agent_id).role_subscribers a.role).count a = n - 1 ∧
    a.oid ∈ (publish (unsubscribe st a.agent_id) m).2.1 ∧
    unsubscribe (unsubscribe st a.agent_id) a.agent_id =
      unsubscribe st a.agent_id := by
  have hunsub : unsubscribe st a.agent_id =
      { st with
        subscribers := dictDel st.subscribers a.agent_id
        role_subscribers := fun r =>
          if r = a.role then (st.role_subscribers r).erase a
          else st.role_subscribers r } := by
    unfold unsubscribe
    rw [hdir]
  have h1 : dictFind (unsubscribe st a.agent_id).subscribers a.agent_id =
      Option.none := by
    rw [hunsub]
    exact dictFind_dictDel_self a.agent_id st.subscribers
  have h2 : ((unsubscribe st a.agent_id).role_subscribers a.role).count a = n - 1 := by
    rw [hunsub]
    simp [List.count_erase_self, hcount]
  refine ⟨h1, h2, ?_, unsubscribe_of_find_none _ _ h1⟩
  have htrace : (publish (unsubscribe st a.agent_id) m).2.1 =
      ((unsubscribe st a.agent_id).role_subscribers a.role).map AgentObj.oid := by
    simp [publish, publishUntargeted, hid, hrole, deliverAll_trace]
  rw [htrace]
  have hmem : a ∈ (unsubscribe st a.agent_id).role_subscribers a.role := by
    have hpos : 0 < ((unsubscribe st a.agent_id).role_subscribers a.role).count a := by
      rw [h2]
      omega
    exact List.count_pos_iff.mp hpos
  exact List.mem_map_of_mem AgentObj.oid hmem

/-- The doubly subscribed bus used in the C10 witness. -/
def busDup : BusState := subscribe (subscribe emptyBus agentMon) agentMon

/-- C10 witness: one unsubscribe on the doubly subscribed bus leaves a stale
role entry that still receives role traffic; the second unsubscribe is a
no-op. -/
theorem unsubscribe_stale_role_entries_witness :
    dictFind busDup.subscribers "mon_1" = some agentMon ∧
    (busDup.role_subscribers AgentRole.system_monitor).count agentMon = 2 ∧
    (2 : Nat) ≤ 2 ∧
    (dictFind (unsubscribe busDup "mon_1").subscribers "mon_1" = Option.none ∧
     ((unsubscribe busDup "mon_1").role_subscribers
        AgentRole.system_monitor).count agentMon = 1 ∧
     (5 : Nat) ∈ (publish (unsubscribe busDup "mon_1") msgMon).2.1 ∧
     unsubscribe (unsubscribe busDup "mon_1") "mon_1" =
       unsubscribe busDup "mon_1") :=
  ⟨rfl, by decide, by decide,
   unsubscribe_stale_role_entries busDup agentMon 2 msgMon rfl (by decide)
     (by decide) rfl rfl⟩

end MultiAgent
